import Mathlib

/-! Verification of the crop-yield prediction service
(`src/summative/api/app.py`).

The development shallowly embeds the three components the specification's
claims are about: the preprocessing pipeline `transform_agricultural_input`,
the confidence heuristic `calculate_prediction_confidence`, and the request
handler `CropYieldPredictor.post`.

Modelling conventions:
* JSON / dataframe cell values are `PyVal` (a string, a number as a
  rational, or the NaN produced by a failed pandas `.map`).  A one-row
  pandas DataFrame built from the request dict is an association list
  `Row`; `getCol`/`setCol` are column read / column assignment (pandas
  keeps column order and appends new columns at the end).
* Python `str` methods (`.strip()`, `.upper()`, `.lower()`, `.title()`)
  are modelled at ASCII level, which matches CPython exactly on ASCII
  input; `.title()` upper-cases each letter that does not follow a letter
  and lower-cases the rest, exactly CPython's algorithm restricted to
  ASCII.
* The four fitted `sklearn` `LabelEncoder`s and the trained model are
  external artifacts that are not part of the repository.  Modelled from
  the spec: a `LabelEncoder` is an immutable finite vocabulary of strings
  mapped bijectively to small non-negative integers (their index), whose
  `transform` raises a `ValueError` carrying sklearn's
  "previously unseen labels" description naming the offending value (and
  only the value) when a string is outside the vocabulary.  The model's
  `predict` is an opaque function parameter that may raise.
* Python exceptions are the explicit error type `PyErr`; the handler's
  `except ValueError` / `except Exception` dispatch is `errorResponse`.
* The success payload's wall-clock `processing_time_ms` field and the
  3-decimal display rounding are outside the embedded state (no claim
  mentions them); the response carries the clamped prediction itself.
-/

/-- Python whitespace for `str.strip()` (ASCII). -/
def pyIsSpace (c : Char) : Bool :=
  c == ' ' || c == '\t' || c == '\n' || c == '\r' || c == '\x0b' || c == '\x0c'

/-- Python `str.strip()`: drop leading and trailing whitespace. -/
def pyStrip (s : String) : String :=
  ⟨((s.data.dropWhile pyIsSpace).reverse.dropWhile pyIsSpace).reverse⟩

/-- Python `str.upper()` (ASCII). -/
def pyUpper (s : String) : String := ⟨s.data.map Char.toUpper⟩

/-- Python `str.lower()` (ASCII). -/
def pyLower (s : String) : String := ⟨s.data.map Char.toLower⟩

/-- Worker for `pyTitle`: the flag records whether the previous character
was a letter (CPython tracks `previous_is_cased`; on ASCII, cased =
letter). -/
def titleAux : Bool → List Char → List Char
  | _, [] => []
  | prevCased, c :: cs =>
    if c.isAlpha then
      (if prevCased then c.toLower else c.toUpper) :: titleAux true cs
    else
      c :: titleAux false cs

/-- Python `str.title()` (ASCII). -/
def pyTitle (s : String) : String := ⟨titleAux false s.data⟩

/-- A JSON / dataframe cell value. -/
inductive PyVal where
  | pstr (s : String)
  | pnum (q : ℚ)
  | pnan
deriving DecidableEq

/-- A one-row dataframe / request dict: association list from column name
to cell value (first occurrence wins, as dict keys are unique). -/
abbrev Row := List (String × PyVal)

/-- Column read (pandas `df[k]`, returning the single cell). -/
def getCol : Row → String → Option PyVal
  | [], _ => none
  | (k0, v) :: rest, k => if k0 = k then some v else getCol rest k

/-- Column assignment (pandas `df[k] = cell`): overwrite in place, or
append the column if absent. -/
def setCol : Row → String → PyVal → Row
  | [], k, v => [(k, v)]
  | (k0, v0) :: rest, k, v =>
    if k0 = k then (k0, v) :: rest else (k0, v0) :: setCol rest k v

/-- Python `k in d` on the request dict. -/
def hasCol (row : Row) (k : String) : Bool := (getCol row k).isSome

/-- A raised Python exception, distinguishing `ValueError` (which the
handler classifies as a validation failure) from everything else. -/
inductive PyErr where
  | valueError (msg : String)
  | keyError (key : String)
  | otherError (msg : String)
deriving DecidableEq

deriving instance DecidableEq for Except

/-- Modelled from the spec: a fitted sklearn `LabelEncoder` is loaded from
the external artifact as an immutable vocabulary of strings; `transform`
maps a vocabulary string to its index and fails on anything else.  The
artifact itself is not in the repository. -/
structure LabelEncoder where
  classes : List String
deriving DecidableEq

/-- sklearn's unseen-label `ValueError` message for one offending value:
it names the attempted value and nothing else — in particular not the
dataframe column it came from, which `transform` never receives. -/
def unseenLabelMsg (u : String) : String :=
  "y contains previously unseen labels: ['" ++ u ++ "']"

/-- `encoder.transform` on the single cell of a one-row column: a
vocabulary string encodes to its index; an unseen string raises sklearn's
`ValueError`, whose message names the attempted value and nothing else;
a non-string cell (a NaN left by `.str` accessors on non-string input)
is likewise unseen. -/
def LabelEncoder.transformOne (enc : LabelEncoder) : PyVal → Except PyErr PyVal
  | .pstr s =>
    if s ∈ enc.classes then
      .ok (.pnum (enc.classes.indexOf s))
    else
      .error (.valueError (unseenLabelMsg s))
  | _ => .error (.valueError "y contains previously unseen labels: [nan]")

/-- The four encoders loaded at process start (`complete_model_data`). -/
structure Encoders where
  region_encoder : LabelEncoder
  soil_encoder : LabelEncoder
  crop_encoder : LabelEncoder
  weather_encoder : LabelEncoder

/-- Normalization applied to the four free-text categorical fields:
`.str.strip().str.title()`. -/
def normCat (s : String) : String := pyTitle (pyStrip s)

/-- `.str.strip().str.title()` on one cell: pandas `.str` accessors turn a
non-string cell into NaN. -/
def stripTitleCell : PyVal → PyVal
  | .pstr s => .pstr (normCat s)
  | _ => .pnan

/-- One iteration of the standardization loop:
`df[k] = df[k].str.strip().str.title()` (a missing column raises
`KeyError`). -/
def stdTextCol (row : Row) (k : String) : Except PyErr Row :=
  match getCol row k with
  | none => .error (.keyError k)
  | some v => .ok (setCol row k (stripTitleCell v))

/-- `text_features_to_standardize` from the source. -/
def text_features_to_standardize : List String :=
  ["Region", "Soil_Type", "Crop", "Weather_Condition"]

/-- The standardization `for` loop. -/
def stdTextCols : Row → List String → Except PyErr Row
  | row, [] => .ok row
  | row, k :: ks =>
    match stdTextCol row k with
    | .error e => .error e
    | .ok row2 => stdTextCols row2 ks

/-- `df[k] = encoder.transform(df[k])` for one categorical column. -/
def encodeCol (enc : LabelEncoder) (row : Row) (k : String) : Except PyErr Row :=
  match getCol row k with
  | none => .error (.keyError k)
  | some v =>
    match enc.transformOne v with
    | .error e => .error e
    | .ok encv => .ok (setCol row k encv)

/-- The four encoder assignments inside the `try` block, in source order. -/
def encodeStage (encs : Encoders) (row : Row) : Except PyErr Row :=
  match encodeCol encs.region_encoder row "Region" with
  | .error e => .error e
  | .ok r1 =>
    match encodeCol encs.soil_encoder r1 "Soil_Type" with
    | .error e => .error e
    | .ok r2 =>
      match encodeCol encs.crop_encoder r2 "Crop" with
      | .error e => .error e
      | .ok r3 => encodeCol encs.weather_encoder r3 "Weather_Condition"

/-- The `except ValueError as encoding_error: raise ValueError(...)`
wrapper around the encoder stage; exceptions of other kinds propagate
unchanged. -/
def wrapEncodingError : PyErr → PyErr
  | .valueError msg =>
    .valueError ("Categorical encoding failed: " ++ msg
      ++ ". Please check that all categorical values are supported.")
  | e => e

/-- Apply a handler to the error of an `Except` (the `try`/`except`
re-raise). -/
def exceptMapError {α : Type} (f : PyErr → PyErr) : Except PyErr α → Except PyErr α
  | .error e => .error (f e)
  | .ok v => .ok v

/-- `.astype(str)` on one cell.  The request's boolean-like fields are
JSON strings, for which this is the identity; the images chosen for the
other cells never hit the TRUE/FALSE table, matching Python, where
`str(...)` of a number or NaN is never "TRUE"/"FALSE" after upper/strip. -/
def pyAstypeStr : PyVal → String
  | .pstr s => s
  | .pnum q => toString q
  | .pnan => "nan"

/-- The fixed table `{'TRUE': 1, 'FALSE': 0}` from the source. -/
def boolean_feature_mapping (s : String) : Option ℕ :=
  if s = "TRUE" then some 1 else if s = "FALSE" then some 0 else none

/-- The normalization the source applies before the table:
`.astype(str).str.upper().str.strip()` on a string cell. -/
def normBool (s : String) : String := pyStrip (pyUpper s)

/-- `.astype(str).str.upper().str.strip().map(boolean_feature_mapping)`
on one cell; an unmapped value becomes NaN. -/
def boolCell (v : PyVal) : PyVal :=
  match boolean_feature_mapping (normBool (pyAstypeStr v)) with
  | some n => .pnum n
  | none => .pnan

/-- One boolean-column assignment. -/
def boolCol (row : Row) (k : String) : Except PyErr Row :=
  match getCol row k with
  | none => .error (.keyError k)
  | some v => .ok (setCol row k (boolCell v))

/-- pandas `.isna()` on one cell. -/
def isNa : PyVal → Bool
  | .pnan => true
  | _ => false

/-- Column read that raises `KeyError` when absent. -/
def requireCol (row : Row) (k : String) : Except PyErr PyVal :=
  match getCol row k with
  | none => .error (.keyError k)
  | some v => .ok v

/-- The `ValueError` message raised when a boolean-like field fails to
map. -/
def boolFailureMsg : String :=
  "Boolean features must be 'TRUE' or 'FALSE' (case insensitive)"

/-- `required_feature_columns` from the source: the fixed column order of
the feature matrix. -/
def required_feature_columns : List String :=
  ["Region", "Soil_Type", "Crop", "Rainfall_mm", "Temperature_Celsius",
   "Fertilizer_Used", "Irrigation_Used", "Weather_Condition", "Days_to_Harvest"]

/-- `df[required_feature_columns]`: select the named columns in the given
order (pandas raises `KeyError` on a missing column). -/
def selectCols (row : Row) : List String → Except PyErr Row
  | [] => .ok []
  | k :: ks =>
    match getCol row k with
    | none => .error (.keyError k)
    | some v =>
      match selectCols row ks with
      | .error e => .error e
      | .ok rest => .ok ((k, v) :: rest)

/-- `transform_agricultural_input` from the source: standardize the four
text features, encode them (wrapping encoder `ValueError`s), map the two
boolean-like features, raise if either produced NaN, then select the nine
feature columns in fixed order. -/
def transform_agricultural_input (encs : Encoders) (raw : Row) : Except PyErr Row :=
  match stdTextCols raw text_features_to_standardize with
  | .error e => .error e
  | .ok df1 =>
    match exceptMapError wrapEncodingError (encodeStage encs df1) with
    | .error e => .error e
    | .ok df2 =>
      match boolCol df2 "Fertilizer_Used" with
      | .error e => .error e
      | .ok df3 =>
        match boolCol df3 "Irrigation_Used" with
        | .error e => .error e
        | .ok df4 =>
          match requireCol df4 "Fertilizer_Used", requireCol df4 "Irrigation_Used" with
          | .error e, _ => .error e
          | _, .error e => .error e
          | .ok fert, .ok irr =>
            if isNa fert || isNa irr then
              .error (.valueError boolFailureMsg)
            else
              selectCols df4 required_feature_columns

/-- `calculate_prediction_confidence` from the source. -/
def calculate_prediction_confidence (prediction_value : ℚ) : String :=
  if 0 ≤ prediction_value ∧ prediction_value ≤ 10 then "High"
  else if 10 < prediction_value ∧ prediction_value ≤ 20 then "Medium"
  else "Low"

/-- A response payload: the handler returns either the success dict or an
error dict, paired below with the HTTP status code. -/
inductive ApiResponse where
  | success (predicted_yield_tons_per_hectare : ℚ) (confidence_level : String)
      (model_version : String)
  | failure (error_message : String) (error_code : String) (suggestions : List String)
deriving DecidableEq

/-- Suggestions of the `except ValueError` branch. -/
def validation_suggestions : List String :=
  ["Check that categorical values are supported by the model",
   "Ensure boolean fields use TRUE/FALSE values",
   "Verify numerical ranges are realistic"]

/-- Suggestions of the `except Exception` branch. -/
def processing_suggestions : List String :=
  ["Verify input data format and values",
   "Contact support if the error persists",
   "Check API documentation for troubleshooting"]

/-- Suggestions of the empty-body branch. -/
def missing_data_suggestions : List String :=
  ["Include all required agricultural parameters in JSON format",
   "Refer to the API documentation for input schema"]

/-- Suggestions of the missing-fields branch. -/
def missing_fields_suggestions (missing : List String) : List String :=
  ["Include the following fields: " ++ String.intercalate ", " missing,
   "Check the API documentation for complete field requirements"]

/-- Python `str(exception)`. -/
def pyErrText : PyErr → String
  | .valueError msg => msg
  | .keyError key => "'" ++ key ++ "'"
  | .otherError msg => msg

/-- The handler's `except` dispatch: a `ValueError` becomes a
VALIDATION_ERROR payload with HTTP 422, any other exception becomes a
PROCESSING_ERROR payload with HTTP 500. -/
def errorResponse : PyErr → ApiResponse × ℕ
  | .valueError msg =>
    (.failure ("Input validation failed: " ++ msg) "VALIDATION_ERROR"
      validation_suggestions, 422)
  | e =>
    (.failure ("Prediction processing failed: " ++ pyErrText e) "PROCESSING_ERROR"
      processing_suggestions, 500)

/-- `required_fields` from the handler (its own literal in the source,
textually equal to `required_feature_columns`). -/
def required_fields : List String :=
  ["Region", "Soil_Type", "Crop", "Rainfall_mm", "Temperature_Celsius",
   "Fertilizer_Used", "Irrigation_Used", "Weather_Condition", "Days_to_Harvest"]

/-- The process-wide read-only state the handler closes over: the four
encoders, the opaque trained model, and its name. -/
structure ModelCtx where
  encoders : Encoders
  predict : Row → Except PyErr ℚ
  model_name : String

/-- `CropYieldPredictor.post` from the source: empty-body check,
missing-fields check, preprocessing, prediction, clamping, confidence,
with the two `except` branches of `errorResponse`. -/
def CropYieldPredictor_post (ctx : ModelCtx) (payload : Row) : ApiResponse × ℕ :=
  if payload.isEmpty then
    (.failure "No input data provided in request body" "MISSING_DATA"
      missing_data_suggestions, 400)
  else
    let missing := required_fields.filter (fun f => !hasCol payload f)
    if missing.isEmpty then
      match transform_agricultural_input ctx.encoders payload with
      | .error e => errorResponse e
      | .ok fm =>
        match ctx.predict fm with
        | .error e => errorResponse e
        | .ok raw =>
          let fp := max 0 raw
          (.success fp (calculate_prediction_confidence fp) ctx.model_name, 200)
    else
      (.failure ("Missing required fields: " ++ String.intercalate ", " missing)
        "MISSING_FIELDS" (missing_fields_suggestions missing), 400)

/-- The four encoder calls of the `try` block applied directly to the four
(already standardized) cells, in source order. -/
def encodeVals (encs : Encoders) (r s c w : PyVal) :
    Except PyErr (PyVal × PyVal × PyVal × PyVal) :=
  match encs.region_encoder.transformOne r with
  | .error e => .error e
  | .ok er =>
    match encs.soil_encoder.transformOne s with
    | .error e => .error e
    | .ok es =>
      match encs.crop_encoder.transformOne c with
      | .error e => .error e
      | .ok ec =>
        match encs.weather_encoder.transformOne w with
        | .error e => .error e
        | .ok ew => .ok (er, es, ec, ew)

/-- `transform_agricultural_input` expressed on the nine cell values of
the request (proved equal to the dataframe version whenever all nine
columns are present). -/
def transformCore (encs : Encoders) (vr vs vc vrain vtemp vf vi vw vd : PyVal) :
    Except PyErr Row :=
  match exceptMapError wrapEncodingError
      (encodeVals encs (stripTitleCell vr) (stripTitleCell vs) (stripTitleCell vc)
        (stripTitleCell vw)) with
  | .error e => .error e
  | .ok (er, es, ec, ew) =>
    if isNa (boolCell vf) || isNa (boolCell vi) then
      .error (.valueError boolFailureMsg)
    else
      .ok [("Region", er), ("Soil_Type", es), ("Crop", ec), ("Rainfall_mm", vrain),
           ("Temperature_Celsius", vtemp), ("Fertilizer_Used", boolCell vf),
           ("Irrigation_Used", boolCell vi), ("Weather_Condition", ew),
           ("Days_to_Harvest", vd)]

/-- `CropYieldPredictor_post` beyond the presence checks, expressed on the
nine cell values (proved equal to the handler whenever all nine columns
are present). -/
def postCore (ctx : ModelCtx) (vr vs vc vrain vtemp vf vi vw vd : PyVal) :
    ApiResponse × ℕ :=
  match transformCore ctx.encoders vr vs vc vrain vtemp vf vi vw vd with
  | .error e => errorResponse e
  | .ok fm =>
    match ctx.predict fm with
    | .error e => errorResponse e
    | .ok raw =>
      (.success (max 0 raw) (calculate_prediction_confidence (max 0 raw))
        ctx.model_name, 200)

/-- The first normalized categorical value (in the source's encoding
order Region, Soil_Type, Crop, Weather_Condition) that is absent from its
field's vocabulary, if any. -/
def firstUnseen (encs : Encoders) (r s c w : String) : Option String :=
  if normCat r ∉ encs.region_encoder.classes then some (normCat r)
  else if normCat s ∉ encs.soil_encoder.classes then some (normCat s)
  else if normCat c ∉ encs.crop_encoder.classes then some (normCat c)
  else if normCat w ∉ encs.weather_encoder.classes then some (normCat w)
  else none

/-- Concrete encoder set for witness evaluation (vocabularies of the
artifact's training data; any fixed vocabularies serve, since every
theorem quantifies over the encoder set). -/
def sampleEncoders : Encoders where
  region_encoder := ⟨["East", "North", "South", "West"]⟩
  soil_encoder := ⟨["Chalky", "Clay", "Loam", "Peaty", "Sandy", "Silt"]⟩
  crop_encoder := ⟨["Barley", "Cotton", "Maize", "Rice", "Soybean", "Wheat"]⟩
  weather_encoder := ⟨["Cloudy", "Rainy", "Sunny"]⟩

/-- Concrete context whose model scores every feature vector as 5. -/
def sampleCtx : ModelCtx where
  encoders := sampleEncoders
  predict := fun _ => .ok 5
  model_name := "Random Forest"

/-- Concrete context whose model raises a `ValueError`. -/
def raisingValueCtx : ModelCtx where
  encoders := sampleEncoders
  predict := fun _ => .error (.valueError "boom")
  model_name := "Random Forest"

/-- Concrete context whose model raises a non-`ValueError` exception. -/
def raisingOtherCtx : ModelCtx where
  encoders := sampleEncoders
  predict := fun _ => .error (.otherError "model exploded")
  model_name := "Random Forest"

/-- The spec's end-to-end example request. -/
def samplePayload : Row :=
  [("Region", .pstr "North"), ("Soil_Type", .pstr "Loam"), ("Crop", .pstr "Wheat"),
   ("Rainfall_mm", .pnum 450), ("Temperature_Celsius", .pnum 22),
   ("Fertilizer_Used", .pstr "TRUE"), ("Irrigation_Used", .pstr "FALSE"),
   ("Weather_Condition", .pstr "Sunny"), ("Days_to_Harvest", .pnum 120)]

/-- The feature matrix the sample payload preprocesses to. -/
def sampleFeatureRow : Row :=
  [("Region", .pnum 1), ("Soil_Type", .pnum 2), ("Crop", .pnum 5),
   ("Rainfall_mm", .pnum 450), ("Temperature_Celsius", .pnum 22),
   ("Fertilizer_Used", .pnum 1), ("Irrigation_Used", .pnum 0),
   ("Weather_Condition", .pnum 2), ("Days_to_Harvest", .pnum 120)]

/-- Sample payload whose `Fertilizer_Used` value maps to neither 1 nor 0
while all four categorical values are in vocabulary. -/
def badBoolPayload : Row :=
  [("Region", .pstr "North"), ("Soil_Type", .pstr "Loam"), ("Crop", .pstr "Wheat"),
   ("Rainfall_mm", .pnum 450), ("Temperature_Celsius", .pnum 22),
   ("Fertilizer_Used", .pstr "MAYBE"), ("Irrigation_Used", .pstr "FALSE"),
   ("Weather_Condition", .pstr "Sunny"), ("Days_to_Harvest", .pnum 120)]

/-- Sample payload with an out-of-vocabulary `Region` and a
`Fertilizer_Used` value that also fails to map. -/
def unknownRegionBadBoolPayload : Row :=
  [("Region", .pstr "Atlantis"), ("Soil_Type", .pstr "Loam"), ("Crop", .pstr "Wheat"),
   ("Rainfall_mm", .pnum 450), ("Temperature_Celsius", .pnum 22),
   ("Fertilizer_Used", .pstr "MAYBE"), ("Irrigation_Used", .pstr "FALSE"),
   ("Weather_Condition", .pstr "Sunny"), ("Days_to_Harvest", .pnum 120)]

/-- Sample payload whose `Region` is outside the vocabulary (everything
else valid). -/
def unknownRegionPayload : Row :=
  [("Region", .pstr "Atlantis"), ("Soil_Type", .pstr "Loam"), ("Crop", .pstr "Wheat"),
   ("Rainfall_mm", .pnum 450), ("Temperature_Celsius", .pnum 22),
   ("Fertilizer_Used", .pstr "TRUE"), ("Irrigation_Used", .pstr "FALSE"),
   ("Weather_Condition", .pstr "Sunny"), ("Days_to_Harvest", .pnum 120)]

/-- Sample payload whose `Soil_Type` is outside the vocabulary (everything
else valid). -/
def unknownSoilPayload : Row :=
  [("Region", .pstr "North"), ("Soil_Type", .pstr "Atlantis"), ("Crop", .pstr "Wheat"),
   ("Rainfall_mm", .pnum 450), ("Temperature_Celsius", .pnum 22),
   ("Fertilizer_Used", .pstr "TRUE"), ("Irrigation_Used", .pstr "FALSE"),
   ("Weather_Condition", .pstr "Sunny"), ("Days_to_Harvest", .pnum 120)]

/-- `Char.ofNat` of a valid code point decodes back to the same code
point. -/
theorem charOfNat_toNat (n : ℕ) (h : n.isValidChar) : (Char.ofNat n).toNat = n := by
  simp [Char.ofNat, h, Char.ofNatAux, Char.toNat, UInt32.toNat, BitVec.toNat_ofNatLt]

/-- Characters with equal code points are equal. -/
theorem char_eq_of_toNat {a b : Char} (h : a.toNat = b.toNat) : a = b := by
  apply Char.ext
  exact UInt32.ext h

/-- `Char.isAlpha` characterized on code points. -/
theorem char_isAlpha_iff (c : Char) :
    c.isAlpha = true ↔ ((65 ≤ c.toNat ∧ c.toNat ≤ 90) ∨ (97 ≤ c.toNat ∧ c.toNat ≤ 122)) := by
  simp only [Char.isAlpha, Char.isUpper, Char.isLower, Bool.or_eq_true, Bool.and_eq_true,
    decide_eq_true_eq, ge_iff_le]
  exact Iff.rfl

/-- Lower-casing twice equals lower-casing once. -/
theorem char_toLower_toLower (c : Char) : c.toLower.toLower = c.toLower := by
  unfold Char.toLower
  by_cases h : c.toNat ≥ 65 ∧ c.toNat ≤ 90
  · rw [if_pos h]
    have h1 : (Char.ofNat (c.toNat + 32)).toNat = c.toNat + 32 :=
      charOfNat_toNat _ (Or.inl (by omega))
    rw [h1, if_neg (by omega : ¬ (c.toNat + 32 ≥ 65 ∧ c.toNat + 32 ≤ 90))]
  · rw [if_neg h, if_neg h]

/-- Upper-casing after lower-casing equals upper-casing directly. -/
theorem char_toUpper_toLower (c : Char) : c.toLower.toUpper = c.toUpper := by
  unfold Char.toLower Char.toUpper
  by_cases h : c.toNat ≥ 65 ∧ c.toNat ≤ 90
  · rw [if_pos h]
    have h1 : (Char.ofNat (c.toNat + 32)).toNat = c.toNat + 32 :=
      charOfNat_toNat _ (Or.inl (by omega))
    rw [h1]
    rw [if_pos (by omega : c.toNat + 32 ≥ 97 ∧ c.toNat + 32 ≤ 122)]
    rw [if_neg (by omega : ¬ (c.toNat ≥ 97 ∧ c.toNat ≤ 122))]
    apply char_eq_of_toNat
    rw [charOfNat_toNat _ (Or.inl (by omega) : (c.toNat + 32 - 32).isValidChar)]
    have h2 : (Char.ofNat (c.toNat + 32 - 32)).toNat = c.toNat + 32 - 32 := by
      exact charOfNat_toNat _ (Or.inl (by omega))
    omega
  · rw [if_neg h]

/-- Lower-casing preserves letter-ness. -/
theorem char_isAlpha_toLower (c : Char) : c.toLower.isAlpha = c.isAlpha := by
  unfold Char.toLower
  by_cases h : c.toNat ≥ 65 ∧ c.toNat ≤ 90
  · rw [if_pos h]
    have h1 : (Char.ofNat (c.toNat + 32)).toNat = c.toNat + 32 :=
      charOfNat_toNat _ (Or.inl (by omega))
    have ha : (Char.ofNat (c.toNat + 32)).isAlpha = true := by
      rw [char_isAlpha_iff, h1]; right; omega
    have hb : c.isAlpha = true := by
      rw [char_isAlpha_iff]; left; omega
    rw [ha, hb]
  · rw [if_neg h]

/-- Lower-casing fixes non-letters. -/
theorem char_toLower_of_not_alpha {c : Char} (h : ¬ c.isAlpha = true) : c.toLower = c := by
  unfold Char.toLower
  rw [if_neg]
  intro hc
  exact h ((char_isAlpha_iff c).mpr (Or.inl ⟨hc.1, hc.2⟩))

/-- Title-casing only depends on the lower-cased character list. -/
theorem titleAux_map_toLower (b : Bool) (l : List Char) :
    titleAux b (l.map Char.toLower) = titleAux b l := by
  induction l generalizing b with
  | nil => rfl
  | cons c cs ih =>
    simp only [List.map_cons, titleAux, char_isAlpha_toLower]
    by_cases h : c.isAlpha = true
    · rw [if_pos h, if_pos h]
      cases b
      · simp [char_toUpper_toLower, ih]
      · simp [char_toLower_toLower, ih]
    · rw [if_neg h, if_neg h, char_toLower_of_not_alpha h, ih]

/-- Strings equal up to case have the same title-casing. -/
theorem pyTitle_eq_of_lower_eq {s t : String} (h : pyLower s = pyLower t) :
    pyTitle s = pyTitle t := by
  unfold pyLower at h
  have hdata : s.data.map Char.toLower = t.data.map Char.toLower :=
    congrArg String.data h
  unfold pyTitle
  rw [← titleAux_map_toLower false s.data, hdata, titleAux_map_toLower]

/-- Reading a column after an assignment: the assigned column holds the
new cell, every other column is untouched. -/
theorem getCol_setCol (row : Row) (k k' : String) (v : PyVal) :
    getCol (setCol row k v) k' = if k = k' then some v else getCol row k' := by
  induction row with
  | nil =>
    by_cases h : k = k'
    · simp [setCol, getCol, h]
    · simp [setCol, getCol, h]
  | cons hd tl ih =>
    obtain ⟨k0, v0⟩ := hd
    by_cases h0 : k0 = k
    · subst h0
      by_cases h1 : k0 = k'
      · subst h1
        simp [setCol, getCol]
      · simp [setCol, getCol, h1]
    · by_cases h1 : k0 = k'
      · subst h1
        have hkk : ¬ k = k0 := fun hc => h0 hc.symm
        simp [setCol, getCol, h0, hkk]
      · simp [setCol, getCol, h0, h1, ih]

/-- A row with a readable column is nonempty. -/
theorem row_ne_nil_of_getCol {row : Row} {k : String} {v : PyVal}
    (h : getCol row k = some v) : row.isEmpty = false := by
  cases row with
  | nil => simp [getCol] at h
  | cons hd tl => rfl

/-- Whenever all nine request columns are present, the dataframe pipeline
computes `transformCore` of the nine cells. -/
theorem transform_core_eq (encs : Encoders) (row : Row)
    (vr vs vc vrain vtemp vf vi vw vd : PyVal)
    (h1 : getCol row "Region" = some vr)
    (h2 : getCol row "Soil_Type" = some vs)
    (h3 : getCol row "Crop" = some vc)
    (h4 : getCol row "Rainfall_mm" = some vrain)
    (h5 : getCol row "Temperature_Celsius" = some vtemp)
    (h6 : getCol row "Fertilizer_Used" = some vf)
    (h7 : getCol row "Irrigation_Used" = some vi)
    (h8 : getCol row "Weather_Condition" = some vw)
    (h9 : getCol row "Days_to_Harvest" = some vd) :
    transform_agricultural_input encs row =
      transformCore encs vr vs vc vrain vtemp vf vi vw vd := by
  unfold transform_agricultural_input transformCore
  simp [text_features_to_standardize, stdTextCols, stdTextCol, encodeStage, encodeCol,
    encodeVals, getCol_setCol, h1, h2, h3, h8]
  cases hR : encs.region_encoder.transformOne (stripTitleCell vr) with
  | error e => simp [exceptMapError]
  | ok er =>
    simp [getCol_setCol]
    cases hS : encs.soil_encoder.transformOne (stripTitleCell vs) with
    | error e => simp [exceptMapError]
    | ok es =>
      simp [getCol_setCol]
      cases hC : encs.crop_encoder.transformOne (stripTitleCell vc) with
      | error e => simp [exceptMapError]
      | ok ec =>
        simp [getCol_setCol]
        cases hW : encs.weather_encoder.transformOne (stripTitleCell vw) with
        | error e => simp [exceptMapError]
        | ok ew =>
          simp [exceptMapError, boolCol, requireCol, selectCols,
            required_feature_columns, getCol_setCol, h4, h5, h6, h7, h9]

/-- Whenever all nine request columns are present, the handler computes
`postCore` of the nine cells: the presence checks pass and the body runs. -/
theorem post_core_eq (ctx : ModelCtx) (payload : Row)
    (vr vs vc vrain vtemp vf vi vw vd : PyVal)
    (h1 : getCol payload "Region" = some vr)
    (h2 : getCol payload "Soil_Type" = some vs)
    (h3 : getCol payload "Crop" = some vc)
    (h4 : getCol payload "Rainfall_mm" = some vrain)
    (h5 : getCol payload "Temperature_Celsius" = some vtemp)
    (h6 : getCol payload "Fertilizer_Used" = some vf)
    (h7 : getCol payload "Irrigation_Used" = some vi)
    (h8 : getCol payload "Weather_Condition" = some vw)
    (h9 : getCol payload "Days_to_Harvest" = some vd) :
    CropYieldPredictor_post ctx payload =
      postCore ctx vr vs vc vrain vtemp vf vi vw vd := by
  unfold CropYieldPredictor_post postCore
  rw [transform_core_eq ctx.encoders payload vr vs vc vrain vtemp vf vi vw vd
    h1 h2 h3 h4 h5 h6 h7 h8 h9]
  simp [row_ne_nil_of_getCol h1, required_fields, hasCol, h1, h2, h3, h4, h5, h6, h7, h8, h9]

/-- Claim C4: the confidence label is a deterministic pure function of the
clamped prediction v = max(0, raw): v in [0,10] yields "High" (including
the endpoints 0 and 10), v in (10,20] yields "Medium" (including 20),
v > 20 yields "Low", and every negative raw prediction is clamped to 0 and
classified "High". -/
theorem confidence_buckets_of_clamped (raw : ℚ) :
    0 ≤ max 0 raw
    ∧ (max 0 raw ≤ 10 → calculate_prediction_confidence (max 0 raw) = "High")
    ∧ (10 < max 0 raw → max 0 raw ≤ 20 →
        calculate_prediction_confidence (max 0 raw) = "Medium")
    ∧ (20 < max 0 raw → calculate_prediction_confidence (max 0 raw) = "Low")
    ∧ (raw < 0 → max 0 raw = 0 ∧ calculate_prediction_confidence (max 0 raw) = "High") := by
  unfold calculate_prediction_confidence
  refine ⟨le_max_left 0 raw, ?_, ?_, ?_, ?_⟩
  · intro h
    rw [if_pos ⟨le_max_left 0 raw, h⟩]
  · intro h1 h2
    rw [if_neg (fun hc => absurd h1 (not_lt.mpr hc.2)), if_pos ⟨h1, h2⟩]
  · intro h
    rw [if_neg (fun hc => by linarith [hc.2]), if_neg (fun hc => by linarith [hc.2])]
  · intro h
    have hm : max 0 raw = 0 := max_eq_left h.le
    exact ⟨hm, by rw [hm, if_pos ⟨le_refl 0, by norm_num⟩]⟩

/-- Witness for C4: a concrete negative raw prediction is clamped to 0 and
classified "High". -/
theorem confidence_buckets_of_clamped_witness :
    max (0 : ℚ) (-3) = 0 ∧ calculate_prediction_confidence (max 0 (-3)) = "High" :=
  (confidence_buckets_of_clamped (-3)).2.2.2.2 (by norm_num)

/-- Claim C9: the classifier itself sends every strictly negative value to
"Low" (the fall-through branch), not "High"; the advertised
negative-to-High behavior exists only because the handler clamps with
max(0, raw) first, under which the same value classifies "High". -/
theorem classifier_negative_is_low (v : ℚ) (hv : v < 0) :
    calculate_prediction_confidence v = "Low"
    ∧ calculate_prediction_confidence (max 0 v) = "High" := by
  unfold calculate_prediction_confidence
  constructor
  · rw [if_neg (fun hc => absurd hv (not_lt.mpr hc.1)),
      if_neg (fun hc => absurd (lt_trans hv (by norm_num)) (not_lt.mpr hc.1.le))]
  · have hm : max 0 v = 0 := max_eq_left hv.le
    rw [hm, if_pos ⟨le_refl 0, by norm_num⟩]

/-- Witness for C9 at v = -1. -/
theorem classifier_negative_is_low_witness :
    calculate_prediction_confidence (-1) = "Low"
    ∧ calculate_prediction_confidence (max 0 (-1)) = "High" :=
  classifier_negative_is_low (-1) (by norm_num)

/-- Claim C8: a nonempty request body missing one or more of the nine
required keys gets error code MISSING_FIELDS with HTTP 400, the message
lists exactly the omitted field names, and the result does not depend on
the encoders or the model (the pipeline is not invoked: the context `ctx`
is arbitrary and absent from the right-hand side). -/
theorem missing_fields_short_circuit (ctx : ModelCtx) (payload : Row)
    (hne : payload.isEmpty = false)
    (hmiss : (required_fields.filter (fun f => !hasCol payload f)).isEmpty = false) :
    CropYieldPredictor_post ctx payload =
      (.failure
        ("Missing required fields: "
          ++ String.intercalate ", " (required_fields.filter (fun f => !hasCol payload f)))
        "MISSING_FIELDS"
        (missing_fields_suggestions (required_fields.filter (fun f => !hasCol payload f))),
       400)
    ∧ (∀ fld, fld ∈ required_fields.filter (fun f => !hasCol payload f)
        ↔ (fld ∈ required_fields ∧ hasCol payload fld = false)) := by
  constructor
  · unfold CropYieldPredictor_post
    simp [hne, hmiss]
  · intro fld
    simp [List.mem_filter]

/-- Witness for C8: a body containing only Region yields MISSING_FIELDS
listing the other eight fields, for an arbitrary concrete context. -/
theorem missing_fields_short_circuit_witness :
    CropYieldPredictor_post sampleCtx [("Region", PyVal.pstr "North")] =
      (.failure
        ("Missing required fields: Soil_Type, Crop, Rainfall_mm, Temperature_Celsius, Fertilizer_Used, Irrigation_Used, Weather_Condition, Days_to_Harvest")
        "MISSING_FIELDS"
        (missing_fields_suggestions
          ["Soil_Type", "Crop", "Rainfall_mm", "Temperature_Celsius",
           "Fertilizer_Used", "Irrigation_Used", "Weather_Condition", "Days_to_Harvest"]),
       400) := by
  have h := missing_fields_short_circuit sampleCtx [("Region", PyVal.pstr "North")]
    rfl (by decide)
  exact h.1.trans (by decide)

/-- Claim C10: the prediction outcome depends only on the nine named
fields — two request mappings that agree on them (both assembling a
feature matrix, i.e. all nine readable) produce the identical feature
matrix and the identical response; extra keys are dropped by the final
column selection. -/
theorem prediction_depends_only_on_nine_fields (ctx : ModelCtx) (p q : Row)
    (hagree : ∀ k, k ∈ required_fields → getCol p k = getCol q k)
    (hpres : ∀ k, k ∈ required_fields → (getCol p k).isSome = true) :
    transform_agricultural_input ctx.encoders p = transform_agricultural_input ctx.encoders q
    ∧ CropYieldPredictor_post ctx p = CropYieldPredictor_post ctx q := by
  obtain ⟨vr, h1⟩ := Option.isSome_iff_exists.mp (hpres "Region" (by decide))
  obtain ⟨vs, h2⟩ := Option.isSome_iff_exists.mp (hpres "Soil_Type" (by decide))
  obtain ⟨vc, h3⟩ := Option.isSome_iff_exists.mp (hpres "Crop" (by decide))
  obtain ⟨vrain, h4⟩ := Option.isSome_iff_exists.mp (hpres "Rainfall_mm" (by decide))
  obtain ⟨vtemp, h5⟩ := Option.isSome_iff_exists.mp (hpres "Temperature_Celsius" (by decide))
  obtain ⟨vf, h6⟩ := Option.isSome_iff_exists.mp (hpres "Fertilizer_Used" (by decide))
  obtain ⟨vi, h7⟩ := Option.isSome_iff_exists.mp (hpres "Irrigation_Used" (by decide))
  obtain ⟨vw, h8⟩ := Option.isSome_iff_exists.mp (hpres "Weather_Condition" (by decide))
  obtain ⟨vd, h9⟩ := Option.isSome_iff_exists.mp (hpres "Days_to_Harvest" (by decide))
  have h1q : getCol q "Region" = some vr := (hagree "Region" (by decide)).symm.trans h1
  have h2q : getCol q "Soil_Type" = some vs := (hagree "Soil_Type" (by decide)).symm.trans h2
  have h3q : getCol q "Crop" = some vc := (hagree "Crop" (by decide)).symm.trans h3
  have h4q : getCol q "Rainfall_mm" = some vrain :=
    (hagree "Rainfall_mm" (by decide)).symm.trans h4
  have h5q : getCol q "Temperature_Celsius" = some vtemp :=
    (hagree "Temperature_Celsius" (by decide)).symm.trans h5
  have h6q : getCol q "Fertilizer_Used" = some vf :=
    (hagree "Fertilizer_Used" (by decide)).symm.trans h6
  have h7q : getCol q "Irrigation_Used" = some vi :=
    (hagree "Irrigation_Used" (by decide)).symm.trans h7
  have h8q : getCol q "Weather_Condition" = some vw :=
    (hagree "Weather_Condition" (by decide)).symm.trans h8
  have h9q : getCol q "Days_to_Harvest" = some vd :=
    (hagree "Days_to_Harvest" (by decide)).symm.trans h9
  constructor
  · rw [transform_core_eq ctx.encoders p vr vs vc vrain vtemp vf vi vw vd
        h1 h2 h3 h4 h5 h6 h7 h8 h9,
      transform_core_eq ctx.encoders q vr vs vc vrain vtemp vf vi vw vd
        h1q h2q h3q h4q h5q h6q h7q h8q h9q]
  · rw [post_core_eq ctx p vr vs vc vrain vtemp vf vi vw vd h1 h2 h3 h4 h5 h6 h7 h8 h9,
      post_core_eq ctx q vr vs vc vrain vtemp vf vi vw vd
        h1q h2q h3q h4q h5q h6q h7q h8q h9q]

/-- Witness for C10: appending an extra key to the sample payload changes
neither the feature matrix nor the response. -/
theorem prediction_depends_only_on_nine_fields_witness :
    CropYieldPredictor_post sampleCtx
        (samplePayload ++ [("Malicious_Extra", PyVal.pstr "ignored")])
      = CropYieldPredictor_post sampleCtx samplePayload :=
  (prediction_depends_only_on_nine_fields sampleCtx
    (samplePayload ++ [("Malicious_Extra", PyVal.pstr "ignored")]) samplePayload
    (by decide) (by decide)).2

/-- Claim C7: on a fully normalized and encoded request the assembled
feature matrix has exactly the nine columns Region, Soil_Type, Crop,
Rainfall_mm, Temperature_Celsius, Fertilizer_Used, Irrigation_Used,
Weather_Condition, Days_to_Harvest in exactly this order, and the three
numeric cells pass through unchanged — they are arbitrary `PyVal`s here,
so no range check (indeed no inspection at all) is applied to them. -/
theorem feature_vector_columns_and_order (encs : Encoders) (row : Row)
    (r s c w f i : String) (vrain vtemp vd : PyVal) (bf bi : ℕ)
    (h1 : getCol row "Region" = some (.pstr r))
    (h2 : getCol row "Soil_Type" = some (.pstr s))
    (h3 : getCol row "Crop" = some (.pstr c))
    (h4 : getCol row "Rainfall_mm" = some vrain)
    (h5 : getCol row "Temperature_Celsius" = some vtemp)
    (h6 : getCol row "Fertilizer_Used" = some (.pstr f))
    (h7 : getCol row "Irrigation_Used" = some (.pstr i))
    (h8 : getCol row "Weather_Condition" = some (.pstr w))
    (h9 : getCol row "Days_to_Harvest" = some vd)
    (hr : normCat r ∈ encs.region_encoder.classes)
    (hs : normCat s ∈ encs.soil_encoder.classes)
    (hc : normCat c ∈ encs.crop_encoder.classes)
    (hw : normCat w ∈ encs.weather_encoder.classes)
    (hf : boolean_feature_mapping (normBool f) = some bf)
    (hi : boolean_feature_mapping (normBool i) = some bi) :
    transform_agricultural_input encs row =
      .ok [("Region", .pnum (encs.region_encoder.classes.indexOf (normCat r))),
           ("Soil_Type", .pnum (encs.soil_encoder.classes.indexOf (normCat s))),
           ("Crop", .pnum (encs.crop_encoder.classes.indexOf (normCat c))),
           ("Rainfall_mm", vrain),
           ("Temperature_Celsius", vtemp),
           ("Fertilizer_Used", .pnum bf),
           ("Irrigation_Used", .pnum bi),
           ("Weather_Condition", .pnum (encs.weather_encoder.classes.indexOf (normCat w))),
           ("Days_to_Harvest", vd)] := by
  rw [transform_core_eq encs row _ _ _ _ _ _ _ _ _ h1 h2 h3 h4 h5 h6 h7 h8 h9]
  unfold transformCore encodeVals
  simp [stripTitleCell, LabelEncoder.transformOne, hr, hs, hc, hw, exceptMapError,
    boolCell, pyAstypeStr, hf, hi, isNa]

/-- Witness for C7 on the sample payload. -/
theorem feature_vector_columns_and_order_witness :
    transform_agricultural_input sampleEncoders samplePayload = .ok sampleFeatureRow := by
  have h := feature_vector_columns_and_order sampleEncoders samplePayload
    "North" "Loam" "Wheat" "Sunny" "TRUE" "FALSE"
    (.pnum 450) (.pnum 22) (.pnum 120) 1 0
    rfl rfl rfl rfl rfl rfl rfl rfl rfl
    (by decide) (by decide) (by decide) (by decide) (by decide) (by decide)
  exact h.trans (by decide)

/-- Claim C5: each boolean-like field is whitespace-stripped and
upper-cased, then mapped by the fixed table TRUE to 1 / FALSE to 0, so
"true", "TRUE", " True " map to 1 and "false", "FALSE" map to 0; and on a
request whose categorical values are all in vocabulary, the preprocessing
pipeline fails exactly when a normalized boolean-like value is neither
TRUE nor FALSE, and then with the boolean VALIDATION `ValueError`. -/
theorem boolean_mapping_table_and_iff (encs : Encoders) (row : Row)
    (r s c w f i : String) (vrain vtemp vd : PyVal)
    (h1 : getCol row "Region" = some (.pstr r))
    (h2 : getCol row "Soil_Type" = some (.pstr s))
    (h3 : getCol row "Crop" = some (.pstr c))
    (h4 : getCol row "Rainfall_mm" = some vrain)
    (h5 : getCol row "Temperature_Celsius" = some vtemp)
    (h6 : getCol row "Fertilizer_Used" = some (.pstr f))
    (h7 : getCol row "Irrigation_Used" = some (.pstr i))
    (h8 : getCol row "Weather_Condition" = some (.pstr w))
    (h9 : getCol row "Days_to_Harvest" = some vd)
    (hr : normCat r ∈ encs.region_encoder.classes)
    (hs : normCat s ∈ encs.soil_encoder.classes)
    (hc : normCat c ∈ encs.crop_encoder.classes)
    (hw : normCat w ∈ encs.weather_encoder.classes) :
    (boolean_feature_mapping (normBool "true") = some 1
      ∧ boolean_feature_mapping (normBool "TRUE") = some 1
      ∧ boolean_feature_mapping (normBool " True ") = some 1
      ∧ boolean_feature_mapping (normBool "false") = some 0
      ∧ boolean_feature_mapping (normBool "FALSE") = some 0)
    ∧ (transform_agricultural_input encs row = .error (.valueError boolFailureMsg)
        ↔ (boolean_feature_mapping (normBool f) = none
            ∨ boolean_feature_mapping (normBool i) = none))
    ∧ (∀ e, transform_agricultural_input encs row = .error e →
        e = .valueError boolFailureMsg) := by
  rw [transform_core_eq encs row _ _ _ _ _ _ _ _ _ h1 h2 h3 h4 h5 h6 h7 h8 h9]
  refine ⟨by decide, ?_, ?_⟩
  · unfold transformCore encodeVals
    cases hbf : boolean_feature_mapping (normBool f) <;>
      cases hbi : boolean_feature_mapping (normBool i) <;>
      simp [stripTitleCell, LabelEncoder.transformOne, hr, hs, hc, hw, exceptMapError,
        boolCell, pyAstypeStr, isNa, hbf, hbi]
  · intro e
    unfold transformCore encodeVals
    cases hbf : boolean_feature_mapping (normBool f) <;>
      cases hbi : boolean_feature_mapping (normBool i) <;>
      simp [stripTitleCell, LabelEncoder.transformOne, hr, hs, hc, hw, exceptMapError,
        boolCell, pyAstypeStr, isNa, hbf, hbi] <;>
      (intro hcontra; exact hcontra.symm)

/-- Witness for C5: on the sample payload (both boolean-like values map)
the pipeline does not raise the boolean VALIDATION error. -/
theorem boolean_mapping_table_and_iff_witness :
    boolean_feature_mapping (normBool " True ") = some 1
    ∧ transform_agricultural_input sampleEncoders samplePayload
        ≠ .error (.valueError boolFailureMsg) := by
  have h := boolean_mapping_table_and_iff sampleEncoders samplePayload
    "North" "Loam" "Wheat" "Sunny" "TRUE" "FALSE"
    (.pnum 450) (.pnum 22) (.pnum 120)
    rfl rfl rfl rfl rfl rfl rfl rfl rfl
    (by decide) (by decide) (by decide) (by decide)
  refine ⟨h.1.2.2.1, fun hcontra => ?_⟩
  rcases h.2.1.mp hcontra with hbad | hbad
  · exact absurd hbad (by decide)
  · exact absurd hbad (by decide)

/-- Claim C6: the categorical normalizer strips surrounding whitespace and
title-cases, so " north " normalizes to "North"; consequently a value that
matches a (title-cased) vocabulary entry up to case and surrounding
whitespace normalizes to that entry and encodes successfully. -/
theorem title_case_vocabulary_match (enc : LabelEncoder) (v w : String)
    (hmem : w ∈ enc.classes)
    (hcase : pyLower (pyStrip v) = pyLower w)
    (htitle : pyTitle w = w) :
    normCat " north " = "North"
    ∧ normCat v = w
    ∧ enc.transformOne (.pstr (normCat v)) = .ok (.pnum (enc.classes.indexOf w)) := by
  have hnv : normCat v = w := by
    unfold normCat
    rw [pyTitle_eq_of_lower_eq hcase, htitle]
  refine ⟨by decide, hnv, ?_⟩
  rw [hnv]
  unfold LabelEncoder.transformOne
  simp [hmem]

/-- Witness for C6: " nOrTh " matches the vocabulary entry "North" of the
sample region encoder up to case and whitespace, and encodes to its
index. -/
theorem title_case_vocabulary_match_witness :
    normCat " nOrTh " = "North"
    ∧ sampleEncoders.region_encoder.transformOne (.pstr (normCat " nOrTh "))
        = .ok (.pnum 1) := by
  have h := title_case_vocabulary_match sampleEncoders.region_encoder " nOrTh " "North"
    (by decide) (by decide) (by decide)
  exact ⟨h.2.1, h.2.2.trans (by decide)⟩

/-- Counterexample to claim C1: a `ValueError` raised by the predictor on
a fully preprocessed request is classified as VALIDATION_ERROR with
HTTP 422 — not as a PROCESSING error — because the handler dispatches on
the exception's type, not on the pipeline stage. -/
theorem predictor_exception_dispatch_cex :
    raisingValueCtx.predict sampleFeatureRow = .error (.valueError "boom")
    ∧ transform_agricultural_input raisingValueCtx.encoders samplePayload
        = .ok sampleFeatureRow
    ∧ CropYieldPredictor_post raisingValueCtx samplePayload =
        (.failure "Input validation failed: boom" "VALIDATION_ERROR"
          validation_suggestions, 422) := by
  refine ⟨rfl, by decide, by decide⟩

/-- Claim C1 (amended): an exception raised by the predictor is classified
by its type: a `ValueError` becomes VALIDATION_ERROR with HTTP 422 and
any other exception becomes PROCESSING_ERROR with HTTP 500. -/
theorem predictor_exception_dispatch (ctx : ModelCtx) (payload fm : Row) (e : PyErr)
    (hne : payload.isEmpty = false)
    (hmiss : (required_fields.filter (fun fld => !hasCol payload fld)).isEmpty = true)
    (htr : transform_agricultural_input ctx.encoders payload = .ok fm)
    (hp : ctx.predict fm = .error e) :
    CropYieldPredictor_post ctx payload =
      match e with
      | .valueError msg =>
        (.failure ("Input validation failed: " ++ msg) "VALIDATION_ERROR"
          validation_suggestions, 422)
      | _ =>
        (.failure ("Prediction processing failed: " ++ pyErrText e) "PROCESSING_ERROR"
          processing_suggestions, 500) := by
  unfold CropYieldPredictor_post
  simp only [hne, Bool.false_eq_true, if_false, hmiss, if_true, htr, hp]
  cases e <;> simp [errorResponse]

/-- Witness for C1 (amended): a non-`ValueError` exception from the
predictor is classified PROCESSING_ERROR with HTTP 500. -/
theorem predictor_exception_dispatch_witness :
    CropYieldPredictor_post raisingOtherCtx samplePayload =
      (.failure "Prediction processing failed: model exploded" "PROCESSING_ERROR"
        processing_suggestions, 500) := by
  have h := predictor_exception_dispatch raisingOtherCtx samplePayload sampleFeatureRow
    (.otherError "model exploded") rfl (by decide) (by decide) rfl
  exact h

/-- Counterexample to claim C2: on a request whose `Fertilizer_Used` fails
to map AND whose `Region` is out of vocabulary, the reported failure is
the categorical-encoding error, not the boolean one — so the encoder
lookup is performed (and reported) although a boolean-like field fails to
map; the boolean check does not precede the encoder stage. -/
theorem bool_failure_before_encoder_cex :
    boolean_feature_mapping (normBool "MAYBE") = none
    ∧ CropYieldPredictor_post sampleCtx unknownRegionBadBoolPayload =
        (.failure
          ("Input validation failed: "
            ++ ("Categorical encoding failed: " ++ unseenLabelMsg "Atlantis"
              ++ ". Please check that all categorical values are supported."))
          "VALIDATION_ERROR" validation_suggestions, 422) := by
  refine ⟨by decide, by decide⟩

/-- Claim C2 (amended): when a boolean-like field fails to map, the
pipeline fails with the boolean VALIDATION error — but only after the
categorical encoder stage has run: all four encoder lookups are performed
first (here they must succeed for the boolean error to surface), and the
failure still precedes the predictor, whose behavior the response does not
depend on. -/
theorem bool_failure_validation_after_encoders (ctx : ModelCtx) (row : Row)
    (r s c w f i : String) (vrain vtemp vd : PyVal)
    (h1 : getCol row "Region" = some (.pstr r))
    (h2 : getCol row "Soil_Type" = some (.pstr s))
    (h3 : getCol row "Crop" = some (.pstr c))
    (h4 : getCol row "Rainfall_mm" = some vrain)
    (h5 : getCol row "Temperature_Celsius" = some vtemp)
    (h6 : getCol row "Fertilizer_Used" = some (.pstr f))
    (h7 : getCol row "Irrigation_Used" = some (.pstr i))
    (h8 : getCol row "Weather_Condition" = some (.pstr w))
    (h9 : getCol row "Days_to_Harvest" = some vd)
    (hr : normCat r ∈ ctx.encoders.region_encoder.classes)
    (hs : normCat s ∈ ctx.encoders.soil_encoder.classes)
    (hc : normCat c ∈ ctx.encoders.crop_encoder.classes)
    (hw : normCat w ∈ ctx.encoders.weather_encoder.classes)
    (hfail : boolean_feature_mapping (normBool f) = none
      ∨ boolean_feature_mapping (normBool i) = none) :
    CropYieldPredictor_post ctx row =
      (.failure ("Input validation failed: " ++ boolFailureMsg) "VALIDATION_ERROR"
        validation_suggestions, 422) := by
  rw [post_core_eq ctx row _ _ _ _ _ _ _ _ _ h1 h2 h3 h4 h5 h6 h7 h8 h9]
  unfold postCore transformCore encodeVals
  rcases hfail with hbf | hbi
  · simp [stripTitleCell, LabelEncoder.transformOne, hr, hs, hc, hw, exceptMapError,
      boolCell, pyAstypeStr, isNa, hbf, errorResponse]
  · simp [stripTitleCell, LabelEncoder.transformOne, hr, hs, hc, hw, exceptMapError,
      boolCell, pyAstypeStr, isNa, hbi, errorResponse]

/-- Witness for C2 (amended): valid categorical values, unmapped
`Fertilizer_Used`: the boolean VALIDATION error surfaces with HTTP 422. -/
theorem bool_failure_validation_after_encoders_witness :
    CropYieldPredictor_post sampleCtx badBoolPayload =
      (.failure ("Input validation failed: " ++ boolFailureMsg) "VALIDATION_ERROR"
        validation_suggestions, 422) :=
  bool_failure_validation_after_encoders sampleCtx badBoolPayload
    "North" "Loam" "Wheat" "Sunny" "MAYBE" "FALSE"
    (.pnum 450) (.pnum 22) (.pnum 120)
    rfl rfl rfl rfl rfl rfl rfl rfl rfl
    (by decide) (by decide) (by decide) (by decide)
    (Or.inl (by decide))

/-- Counterexample to claim C3: two requests that fail on different
categorical fields — `Region` unknown in one, `Soil_Type` unknown in the
other — produce byte-identical error responses, so the failing field's
name is not derivable from the message (only the attempted value is). -/
theorem encoding_error_field_ambiguity_cex :
    CropYieldPredictor_post sampleCtx unknownRegionPayload
      = CropYieldPredictor_post sampleCtx unknownSoilPayload
    ∧ (CropYieldPredictor_post sampleCtx unknownRegionPayload).2 = 422
    ∧ (CropYieldPredictor_post sampleCtx unknownRegionPayload).1 =
        .failure
          ("Input validation failed: "
            ++ ("Categorical encoding failed: " ++ unseenLabelMsg "Atlantis"
              ++ ". Please check that all categorical values are supported."))
          "VALIDATION_ERROR" validation_suggestions
    ∧ getCol unknownRegionPayload "Region" = some (.pstr "Atlantis")
    ∧ getCol unknownRegionPayload "Soil_Type" = some (.pstr "Loam")
    ∧ getCol unknownSoilPayload "Region" = some (.pstr "North")
    ∧ getCol unknownSoilPayload "Soil_Type" = some (.pstr "Atlantis")
    ∧ normCat "Atlantis" ∉ sampleEncoders.region_encoder.classes
    ∧ normCat "Loam" ∈ sampleEncoders.soil_encoder.classes
    ∧ normCat "North" ∈ sampleEncoders.region_encoder.classes
    ∧ normCat "Atlantis" ∉ sampleEncoders.soil_encoder.classes := by
  decide

/-- Claim C3 (amended): a request containing an out-of-vocabulary
categorical value fails with a VALIDATION error (HTTP 422) whose message
carries the underlying lookup failure description, from which the
attempted (normalized) value — though not in general the field name — is
derivable; the failure short-circuits the pipeline before the predictor,
on whose behavior the response does not depend. -/
theorem unknown_categorical_validation (ctx : ModelCtx) (row : Row)
    (r s c w u : String) (vrain vtemp vf vi vd : PyVal)
    (h1 : getCol row "Region" = some (.pstr r))
    (h2 : getCol row "Soil_Type" = some (.pstr s))
    (h3 : getCol row "Crop" = some (.pstr c))
    (h4 : getCol row "Rainfall_mm" = some vrain)
    (h5 : getCol row "Temperature_Celsius" = some vtemp)
    (h6 : getCol row "Fertilizer_Used" = some vf)
    (h7 : getCol row "Irrigation_Used" = some vi)
    (h8 : getCol row "Weather_Condition" = some (.pstr w))
    (h9 : getCol row "Days_to_Harvest" = some vd)
    (hu : firstUnseen ctx.encoders r s c w = some u) :
    CropYieldPredictor_post ctx row =
      (.failure
        ("Input validation failed: "
          ++ ("Categorical encoding failed: " ++ unseenLabelMsg u
            ++ ". Please check that all categorical values are supported."))
        "VALIDATION_ERROR" validation_suggestions, 422) := by
  rw [post_core_eq ctx row _ _ _ _ _ _ _ _ _ h1 h2 h3 h4 h5 h6 h7 h8 h9]
  unfold firstUnseen at hu
  unfold postCore transformCore encodeVals
  by_cases hR : normCat r ∈ ctx.encoders.region_encoder.classes
  · rw [if_neg (by simp [hR])] at hu
    by_cases hS : normCat s ∈ ctx.encoders.soil_encoder.classes
    · rw [if_neg (by simp [hS])] at hu
      by_cases hC : normCat c ∈ ctx.encoders.crop_encoder.classes
      · rw [if_neg (by simp [hC])] at hu
        by_cases hW : normCat w ∈ ctx.encoders.weather_encoder.classes
        · rw [if_neg (by simp [hW])] at hu
          exact absurd hu (by simp)
        · rw [if_pos hW] at hu
          obtain rfl : normCat w = u := Option.some.inj hu
          simp [stripTitleCell, LabelEncoder.transformOne, hR, hS, hC, hW,
            exceptMapError, wrapEncodingError, errorResponse]
      · rw [if_pos hC] at hu
        obtain rfl : normCat c = u := Option.some.inj hu
        simp [stripTitleCell, LabelEncoder.transformOne, hR, hS, hC,
          exceptMapError, wrapEncodingError, errorResponse]
    · rw [if_pos hS] at hu
      obtain rfl : normCat s = u := Option.some.inj hu
      simp [stripTitleCell, LabelEncoder.transformOne, hR, hS,
        exceptMapError, wrapEncodingError, errorResponse]
  · rw [if_pos hR] at hu
    obtain rfl : normCat r = u := Option.some.inj hu
    simp [stripTitleCell, LabelEncoder.transformOne, hR,
      exceptMapError, wrapEncodingError, errorResponse]

/-- Witness for C3 (amended): unknown `Region` "Atlantis" yields the
VALIDATION response carrying the attempted value, with HTTP 422. -/
theorem unknown_categorical_validation_witness :
    CropYieldPredictor_post sampleCtx unknownRegionPayload =
      (.failure
        ("Input validation failed: "
          ++ ("Categorical encoding failed: " ++ unseenLabelMsg "Atlantis"
            ++ ". Please check that all categorical values are supported."))
        "VALIDATION_ERROR" validation_suggestions, 422) :=
  unknown_categorical_validation sampleCtx unknownRegionPayload
    "Atlantis" "Loam" "Wheat" "Sunny" "Atlantis"
    (.pnum 450) (.pnum 22) (.pstr "TRUE") (.pstr "FALSE") (.pnum 120)
    rfl rfl rfl rfl rfl rfl rfl rfl rfl (by decide)
